import Mathlib

/-!
Verification development for `userdatalog_gps_to_kml.py`, a converter from
Dynon SkyView user-data-log CSV files to per-session KML files.

Embedding conventions:
* A CSV cell is modelled by its semantic content.  A numeric cell is either
  `blank` (the empty string, falsy in Python), `num q` (non-blank text that
  Python `float` / `int` parses to the value `q`), or `bad` (non-blank text on
  which the parse raises `ValueError`).  Python floats are idealised as exact
  rationals; NaN and infinity are outside the model.
* Textual cells (`GPS Date & Time`, `Latitude (deg)`, `Longitude (deg)`) are
  plain strings, the empty string being the blank cell.
* Python exceptions are values of `PyError`; a function that can raise returns
  `Except PyError _`.  The conversion driver additionally carries the
  program state at the moment an exception propagates, so that resource
  (open-file) claims can be stated about abort paths.
* The filesystem is modelled as the list of surviving closed KML files plus
  the at-most-one open KML file of the driver state.
-/

/-- Cell of a CSV column that the program parses with Python `float` once it is
non-blank (`Session Time`, `GPS Altitude (feet)`). -/
inductive FloatCell where
  | blank : FloatCell
  | num : ℚ → FloatCell
  | bad : FloatCell
deriving DecidableEq

/-- Cell of a CSV column that the program parses with Python `int` once it is
non-blank (`GPS Fix Quality`, `Number of Satellites`). -/
inductive IntCell where
  | blank : IntCell
  | num : ℤ → IntCell
  | bad : IntCell
deriving DecidableEq

/-- One data row of the CSV file, with the seven columns the program reads.
String fields use `""` for a blank cell. -/
structure Row where
  session_time : FloatCell
  fix_quality : IntCell
  num_sats : IntCell
  date_and_time : String
  lat : String
  lon : String
  alt : FloatCell
deriving DecidableEq

/-- The configuration fields of `Config` that the core conversion logic
reads (`min_fix_quality`, `min_satellites`); the path/template fields are
file-system collaborators outside the embedding. -/
structure Config where
  min_fix_quality : ℤ
  min_satellites : ℤ
deriving DecidableEq

/-- The configuration built in `main()`: `min_fix_quality=1`,
`min_satellites=4`. -/
def default_config : Config :=
  { min_fix_quality := 1, min_satellites := 4 }

/-- Python exceptions that the modelled code can raise. -/
inductive PyError where
  | valueError : PyError
  | indexError : PyError
  | attributeError : PyError
  | zeroDivisionError : PyError
deriving DecidableEq

/-- The loop body of `get_session_list`: walks the remaining rows carrying
`csv_row_index` (incremented only for rows whose `Session Time` is non-blank,
mirroring the early `continue`), `last_session_time` and the accumulated
`session_list`; appends the final sentinel entry after the last row. -/
def session_loop : List Row → ℕ → ℚ → List ℕ → Except PyError (List ℕ)
  | [], csv_row_index, _, session_list =>
      Except.ok (session_list ++ [csv_row_index])
  | row :: rows, csv_row_index, last_session_time, session_list =>
      match row.session_time with
      | FloatCell.blank => session_loop rows csv_row_index last_session_time session_list
      | FloatCell.bad => Except.error PyError.valueError
      | FloatCell.num t =>
          session_loop rows (csv_row_index + 1) t
            (if csv_row_index = 0 ∨ t < last_session_time then session_list ++ [csv_row_index]
             else session_list)

/-- `get_session_list`: build the session boundary list for the rows of the
input file, starting with row index 0, `last_session_time = -1.0` and an
empty list. -/
def get_session_list (rows : List Row) : Except PyError (List ℕ) :=
  session_loop rows 0 (-1) []

/-- The parsed session times of the rows the indexer considers (non-blank
`Session Time`), in file order. -/
def consideredTimes (rows : List Row) : List ℚ :=
  rows.filterMap (fun r =>
    match r.session_time with
    | FloatCell.num t => some t
    | _ => none)

/-- The number of rows the indexer considers: rows whose `Session Time` cell
is non-blank. -/
def consideredCount (rows : List Row) : ℕ :=
  (rows.filter (fun r => r.session_time ≠ FloatCell.blank)).length

/-- Specification-side count of backwards time steps in a list of session
times, given the previous time. -/
def countDescents : ℚ → List ℚ → ℕ
  | _, [] => 0
  | last, t :: ts => (if t < last then 1 else 0) + countDescents t ts

/-- Specification-side session count of a list of session times: one session
for the first considered row plus one per backwards time step. -/
def countSessions : List ℚ → ℕ
  | [] => 0
  | t :: ts => 1 + countDescents t ts

/-- A row with the given session time and otherwise valid GPS data, used for
concrete indexer runs. -/
def timeRow (t : ℚ) : Row :=
  { session_time := FloatCell.num t
    fix_quality := IntCell.num 1
    num_sats := IntCell.num 5
    date_and_time := "2020-01-01 00:00:00"
    lat := "45.1"
    lon := "-122.2"
    alt := FloatCell.num 100 }

/-- The 8-row input of the monotonic-break example: session times
1, 2, 3, 0, 1, 5, 2, 9. -/
def c3_rows : List Row :=
  [timeRow 1, timeRow 2, timeRow 3, timeRow 0, timeRow 1, timeRow 5, timeRow 2, timeRow 9]

/-- `METERS_PER_FOOT = 0.3048`, the feet-to-meters conversion constant,
modelled as an exact rational. -/
def METERS_PER_FOOT : ℚ := 3048 / 10000

/-- Fractional decimal digits of `n / d` (with `n < d`), with fuel; stops when
the remainder is zero.  This is the idealised decimal rendering standing in
for Python `str` on a float. -/
def fracDigits : ℕ → ℕ → ℕ → String
  | 0, _, _ => ""
  | fuel + 1, n, d =>
      if n = 0 then ""
      else toString (n * 10 / d) ++ fracDigits fuel (n * 10 % d) d

/-- Idealised decimal rendering of a rational, standing in for Python
`str(float)`: sign, integer part, a dot, then the fractional digits (a single
`0` when the value is integral, as Python prints for floats). -/
def decimalString (q : ℚ) : String :=
  let sign := if q < 0 then "-" else ""
  let ip := q.num.natAbs / q.den
  let r := q.num.natAbs % q.den
  let frac := fracDigits 30 r q.den
  sign ++ toString ip ++ "." ++ (if frac = "" then "0" else frac)

/-- The serialised coordinate record written for one accepted row:
longitude text, latitude text and the altitude in meters, comma separated and
terminated by CRLF, exactly as the format string in the source. -/
def kml_coordinate_line (lon lat : String) (alt_meters : ℚ) : String :=
  lon ++ "," ++ lat ++ "," ++ decimalString alt_meters ++ "\r\n"

/-- `generate_kml_coordinate_string`: the row validator.  Mirrors the source
line by line: blank check on fix quality / satellite count / timestamp, then
the threshold check with Python short-circuit `or` (the satellite count is
only parsed when the fix-quality comparison is false), then the blank check
on latitude / longitude / altitude, then the feet-to-meters conversion.
`Except.ok none` is the non-fatal per-row rejection (`return None`);
`Except.error` is a raised `ValueError` from `int` / `float`. -/
def generate_kml_coordinate_string (cfg : Config) (row : Row) :
    Except PyError (Option String) :=
  if row.fix_quality = IntCell.blank ∨ row.num_sats = IntCell.blank ∨
      row.date_and_time = "" then
    Except.ok none
  else
    match row.fix_quality with
    | IntCell.blank => Except.ok none
    | IntCell.bad => Except.error PyError.valueError
    | IntCell.num fq =>
        if fq < cfg.min_fix_quality then Except.ok none
        else
          match row.num_sats with
          | IntCell.blank => Except.ok none
          | IntCell.bad => Except.error PyError.valueError
          | IntCell.num ns =>
              if ns < cfg.min_satellites then Except.ok none
              else if row.lat = "" ∨ row.lon = "" ∨ row.alt = FloatCell.blank then
                Except.ok none
              else
                match row.alt with
                | FloatCell.blank => Except.ok none
                | FloatCell.bad => Except.error PyError.valueError
                | FloatCell.num a =>
                    Except.ok (some (kml_coordinate_line row.lon row.lat
                      (a * METERS_PER_FOOT)))

/-- A fully valid row used as the C5 witness input: altitude 100 feet. -/
def c5_row : Row := timeRow 1

/-- A row whose satellite count parses to 3 (below the default minimum 4) but
whose fix-quality text is non-blank and unparseable. -/
def c6_row : Row :=
  { session_time := FloatCell.num 1
    fix_quality := IntCell.bad
    num_sats := IntCell.num 3
    date_and_time := "2020-01-01 00:00:00"
    lat := "45.1"
    lon := "-122.2"
    alt := FloatCell.num 100 }

/-- A row rejected for low fix quality (0 under default minimum 1). -/
def c6_low_fix_row : Row :=
  { timeRow 1 with fix_quality := IntCell.num 0 }

/-- A row rejected for low satellite count (3 under default minimum 4). -/
def c6_low_sats_row : Row :=
  { timeRow 1 with num_sats := IntCell.num 3 }

/-- A row with non-blank fix quality (parsing to 0, below the minimum) and
non-blank but unparseable satellite-count text. -/
def c8_row : Row :=
  { timeRow 1 with fix_quality := IntCell.num 0, num_sats := IntCell.bad }

/-- Row with unparseable fix-quality text and otherwise valid data. -/
def c8_bad_fix_row : Row := { timeRow 1 with fix_quality := IntCell.bad }

/-- Row with unparseable satellite-count text and passing fix quality. -/
def c8_bad_sats_row : Row := { timeRow 1 with num_sats := IntCell.bad }

/-- Row with unparseable altitude text and otherwise accepted fields. -/
def c8_bad_alt_row : Row := { timeRow 1 with alt := FloatCell.bad }

/-- Row with a blank fix-quality field. -/
def c8_blank_fix_row : Row := { timeRow 1 with fix_quality := IntCell.blank }

/-- A row whose latitude and longitude texts are not numbers at all. -/
def c10_row : Row :=
  { session_time := FloatCell.num 1
    fix_quality := IntCell.num 2
    num_sats := IntCell.num 7
    date_and_time := "2020-01-01 00:00:00"
    lat := "NOT.A.NUMBER north"
    lon := "some words"
    alt := FloatCell.num 50 }

/-- State of the conversion driver `convert_userdatalog_csv_to_kml`, named
after the local variables of the source.  `kml_file` is the at-most-one open
KML output (session number, records appended so far); `files` is the list of
closed KML files surviving on disk (session number, records); `closed_log` is
a specification-side history of closed sessions (session number, records
appended to it), written at close time and never consulted by the code. -/
structure DriverState where
  session_index : ℕ
  sessions_written : ℕ
  empty_session_count : ℕ
  csv_row_index : ℕ
  csv_rows_rejected : ℕ
  kml_rows_written_this_session : ℕ
  kml_rows_written_total : ℕ
  kml_file : Option (ℕ × List String)
  files : List (ℕ × List String)
  closed_log : List (ℕ × ℕ)
deriving DecidableEq

/-- The driver state at the top of `convert_userdatalog_csv_to_kml`, before
the second pass over the rows. -/
def init_state : DriverState :=
  { session_index := 0
    sessions_written := 0
    empty_session_count := 0
    csv_row_index := 0
    csv_rows_rejected := 0
    kml_rows_written_this_session := 0
    kml_rows_written_total := 0
    kml_file := none
    files := []
    closed_log := [] }

/-- `delete_session_file`: `os.remove` on the named KML file, modelled as
dropping the (unique) file with that session number from the disk list. -/
def delete_session_file (files : List (ℕ × List String)) (n : ℕ) :
    List (ℕ × List String) :=
  files.eraseP (fun f => f.1 == n)

/-- `open_kml_session_file`: starts the KML file for session
`session_index + 1` (the header text is template collaboration outside the
embedding; the file starts with no coordinate records). -/
def open_kml_session_file (st : DriverState) : DriverState :=
  { st with kml_file := some (st.session_index + 1, []) }

/-- The close block of the driver loop: `close_session_file` moves the open
file (with footer) onto disk and counts it written; a session with zero
appended records is then deleted again and uncounted; finally the session
index advances and the per-session counter resets. -/
def close_session_step (st : DriverState) (n : ℕ) (recs : List String) :
    DriverState :=
  let st1 := { st with
    files := st.files ++ [(n, recs)]
    kml_file := none
    sessions_written := st.sessions_written + 1
    closed_log := st.closed_log ++ [(n, st.kml_rows_written_this_session)] }
  let st2 :=
    if st1.kml_rows_written_this_session = 0 then
      { st1 with
        empty_session_count := st1.empty_session_count + 1
        files := delete_session_file st1.files n
        sessions_written := st1.sessions_written - 1 }
    else st1
  { st2 with session_index := st2.session_index + 1,
             kml_rows_written_this_session := 0 }

/-- The per-row write block: run the validator; on rejection count the row
rejected, on acceptance append the record to the open KML file (writing with
no file open is Python `AttributeError` on `None`); a validator `ValueError`
propagates with the state at that moment. -/
def write_phase (cfg : Config) (row : Row) (st : DriverState) :
    Except (PyError × DriverState) DriverState :=
  match generate_kml_coordinate_string cfg row with
  | Except.error e => Except.error (e, st)
  | Except.ok none =>
      Except.ok { st with csv_rows_rejected := st.csv_rows_rejected + 1 }
  | Except.ok (some s) =>
      match st.kml_file with
      | none => Except.error (PyError.attributeError, st)
      | some (n, recs) =>
          Except.ok { st with
            kml_file := some (n, recs ++ [s])
            kml_rows_written_this_session := st.kml_rows_written_this_session + 1
            kml_rows_written_total := st.kml_rows_written_total + 1 }

/-- The end-of-row close check: reading `session_list[session_index + 1]`
(raising `IndexError` past the end), and closing the current session when the
next row starts a new one (`close_session_file(None)` is Python
`AttributeError`). -/
def driver_close_check (session_list : List ℕ) (st : DriverState) :
    Except (PyError × DriverState) DriverState :=
  match session_list.get? (st.session_index + 1) with
  | none => Except.error (PyError.indexError, st)
  | some b2 =>
      if b2 = st.csv_row_index + 1 then
        match st.kml_file with
        | none => Except.error (PyError.attributeError, st)
        | some (n, recs) => Except.ok (close_session_step st n recs)
      else Except.ok st

/-- One iteration of the driver loop over one CSV row: boundary open check
(reading `session_list[session_index]`, raising `IndexError` past the end),
validation and write, close check, then the row index advances. -/
def driver_row_step (cfg : Config) (session_list : List ℕ) (st : DriverState)
    (row : Row) : Except (PyError × DriverState) DriverState :=
  match session_list.get? st.session_index with
  | none => Except.error (PyError.indexError, st)
  | some b =>
      let st1 := if b = st.csv_row_index then open_kml_session_file st else st
      match write_phase cfg row st1 with
      | Except.error e => Except.error e
      | Except.ok st2 =>
          match driver_close_check session_list st2 with
          | Except.error e => Except.error e
          | Except.ok st3 =>
              Except.ok { st3 with csv_row_index := st3.csv_row_index + 1 }

/-- The driver loop over all CSV rows of the second pass. -/
def driver_loop (cfg : Config) (session_list : List ℕ) :
    List Row → DriverState → Except (PyError × DriverState) DriverState
  | [], st => Except.ok st
  | row :: rows, st =>
      match driver_row_step cfg session_list st row with
      | Except.error e => Except.error e
      | Except.ok st1 => driver_loop cfg session_list rows st1

/-- Result of a completed `convert_userdatalog_csv_to_kml` run: the early
return on an empty session index, or the end-of-run statistics (row rejection
percentage, session rejection percentage, final driver state). -/
inductive Outcome where
  | emptyIndex : Outcome
  | stats : ℚ → ℚ → DriverState → Outcome
deriving DecidableEq

/-- `convert_userdatalog_csv_to_kml`: builds the session index, runs the
second pass, then computes the statistics.  The percentage computations
divide by `csv_row_index` and by `sessions_detected`, raising
`ZeroDivisionError` when the divisor is zero, exactly as the unguarded Python
divisions do.  A propagating error carries the driver state at that moment
(before the index pass, `init_state`: no KML file is open yet). -/
def convert_userdatalog_csv_to_kml (cfg : Config) (rows : List Row) :
    Except (PyError × DriverState) Outcome :=
  match get_session_list rows with
  | Except.error e => Except.error (e, init_state)
  | Except.ok session_list =>
      if session_list = [] then Except.ok Outcome.emptyIndex
      else
        match driver_loop cfg session_list rows init_state with
        | Except.error e => Except.error e
        | Except.ok st =>
            if st.csv_row_index = 0 then Except.error (PyError.zeroDivisionError, st)
            else
              let sessions_detected := session_list.length - 1
              if sessions_detected = 0 then
                Except.error (PyError.zeroDivisionError, st)
              else
                Except.ok (Outcome.stats
                  ((st.csv_rows_rejected : ℚ) / (st.csv_row_index : ℚ))
                  (1 - (st.sessions_written : ℚ) / (sessions_detected : ℚ))
                  st)

/-- The Python exception with which a run ended, if it raised. -/
def run_error (r : Except (PyError × DriverState) Outcome) : Option PyError :=
  match r with
  | Except.error (e, _) => some e
  | Except.ok _ => none

/-- The open KML file at the moment a run raised, if it raised. -/
def open_file_at_abort (r : Except (PyError × DriverState) Outcome) :
    Option (ℕ × List String) :=
  match r with
  | Except.error (_, st) => st.kml_file
  | Except.ok _ => none

/-- Two physical rows, the first with a blank session time. -/
def c2_rows : List Row :=
  [{ timeRow 1 with session_time := FloatCell.blank }, timeRow 5]

/-- A single row whose session time parses but whose fix-quality text is
non-blank and unparseable. -/
def c9_row : Row := { timeRow 1 with fix_quality := IntCell.bad }

/-- Invariant of the driver state along the second pass, relative to the
session boundary list.  The surviving disk files are exactly the closed
sessions with a nonzero record count; the written counter matches; session
numbers are bounded by the session index and pairwise distinct in the close
history; the open file (if any) belongs to the current session, its content
matches the per-session counter, and it was opened at a boundary already
passed. -/
def DriverInv (session_list : List ℕ) (st : DriverState) : Prop :=
  st.files.map (fun f => (f.1, f.2.length)) =
      st.closed_log.filter (fun c => c.2 ≠ 0) ∧
  st.sessions_written = (st.closed_log.filter (fun c => c.2 ≠ 0)).length ∧
  (∀ c ∈ st.closed_log, c.1 ≤ st.session_index) ∧
  (∀ f ∈ st.files, f.1 ≤ st.session_index) ∧
  (∀ p, st.kml_file = some p →
      p.1 = st.session_index + 1 ∧
        p.2.length = st.kml_rows_written_this_session) ∧
  (st.kml_file = none → st.kml_rows_written_this_session = 0) ∧
  (∀ p, st.kml_file = some p → ∀ v,
      session_list.get? st.session_index = some v → v < st.csv_row_index) ∧
  List.Pairwise (fun a b => a.1 ≠ b.1) st.closed_log

/-- Mid-row variant of `DriverInv`: between the boundary-open check and the
end-of-row index increment, the open file may have been opened at the current
row, so its boundary is only bounded non-strictly by the row index. -/
def DriverInvMid (session_list : List ℕ) (st : DriverState) : Prop :=
  st.files.map (fun f => (f.1, f.2.length)) =
      st.closed_log.filter (fun c => c.2 ≠ 0) ∧
  st.sessions_written = (st.closed_log.filter (fun c => c.2 ≠ 0)).length ∧
  (∀ c ∈ st.closed_log, c.1 ≤ st.session_index) ∧
  (∀ f ∈ st.files, f.1 ≤ st.session_index) ∧
  (∀ p, st.kml_file = some p →
      p.1 = st.session_index + 1 ∧
        p.2.length = st.kml_rows_written_this_session) ∧
  (st.kml_file = none → st.kml_rows_written_this_session = 0) ∧
  (∀ p, st.kml_file = some p → ∀ v,
      session_list.get? st.session_index = some v → v ≤ st.csv_row_index) ∧
  List.Pairwise (fun a b => a.1 ≠ b.1) st.closed_log

/-- A two-session input: the only row of session 1 is rejected (fix quality
0), the only row of session 2 (session time going backwards) is accepted. -/
def c4_rows : List Row :=
  [{ timeRow 1 with fix_quality := IntCell.num 0 }, timeRow 0]

/-- The final driver state of the run on `c4_rows`: session 1 closed with
zero records and deleted, session 2 closed with one record and kept. -/
def c4_final : DriverState :=
  { session_index := 2
    sessions_written := 1
    empty_session_count := 1
    csv_row_index := 2
    csv_rows_rejected := 1
    kml_rows_written_this_session := 0
    kml_rows_written_total := 1
    kml_file := none
    files := [(2, [kml_coordinate_line "-122.2" "45.1" ((100 : ℚ) * METERS_PER_FOOT)])]
    closed_log := [(1, 0), (2, 1)] }

/-- Full characterisation of a successful `session_loop` run: the result is
the accumulator followed by a non-empty tail whose entries are at least the
starting row index, strictly increasing, ending in the starting index plus the
number of considered rows, with one boundary per detected session. -/
theorem session_loop_ok_spec :
    ∀ (rows : List Row) (idx : ℕ) (last : ℚ) (acc sl : List ℕ),
      session_loop rows idx last acc = Except.ok sl →
      ∃ tl, sl = acc ++ tl ∧ (∀ x ∈ tl, idx ≤ x) ∧ tl.Chain' (· < ·) ∧ tl ≠ [] ∧
        tl.getLast? = some (idx + consideredCount rows) ∧
        tl.length = 1 + (if idx = 0 then countSessions (consideredTimes rows)
                         else countDescents last (consideredTimes rows)) := by
  intro rows
  induction rows with
  | nil =>
      intro idx last acc sl h
      simp only [session_loop, Except.ok.injEq] at h
      refine ⟨[idx], h.symm, ?_, ?_, ?_, ?_, ?_⟩
      · simp
      · simp
      · simp
      · simp [consideredCount]
      · simp [consideredTimes, countSessions, countDescents]
  | cons r rs ih =>
      intro idx last acc sl h
      cases hst : r.session_time with
      | blank =>
          rw [session_loop, hst] at h
          obtain ⟨tl, h1, h2, h3, h4, h5, h6⟩ := ih idx last acc sl h
          refine ⟨tl, h1, h2, h3, h4, ?_, ?_⟩
          · simpa [consideredCount, hst] using h5
          · simpa [consideredTimes, hst] using h6
      | bad =>
          rw [session_loop, hst] at h
          exact absurd h (by simp)
      | num t =>
          rw [session_loop, hst] at h
          change session_loop rs (idx + 1) t
            (if idx = 0 ∨ t < last then acc ++ [idx] else acc) = Except.ok sl at h
          by_cases hc : idx = 0 ∨ t < last
          · rw [if_pos hc] at h
            obtain ⟨tl, h1, h2, h3, h4, h5, h6⟩ := ih (idx + 1) t (acc ++ [idx]) sl h
            refine ⟨idx :: tl, by simpa using h1, ?_, ?_, by simp, ?_, ?_⟩
            · intro x hx
              rcases List.mem_cons.mp hx with hx | hx
              · omega
              · exact le_trans (Nat.le_succ idx) (h2 x hx)
            · rw [List.chain'_cons']
              refine ⟨?_, h3⟩
              intro y hy
              have : y ∈ tl := List.mem_of_mem_head? hy
              have := h2 y this
              omega
            · obtain ⟨t0, tl', rfl⟩ := List.exists_cons_of_ne_nil h4
              rw [List.getLast?_cons_cons]
              rw [h5]
              have : consideredCount (r :: rs) = 1 + consideredCount rs := by
                simp [consideredCount, hst, Nat.add_comm]
              rw [this]
              congr 1
              omega
            · have htimes : consideredTimes (r :: rs) = t :: consideredTimes rs := by
                simp [consideredTimes, hst]
              rw [htimes]
              simp only [List.length_cons]
              rw [h6]
              have h7 : ¬ (idx + 1 = 0) := by omega
              rw [if_neg h7]
              rcases Nat.eq_zero_or_pos idx with h0 | h0
              · rw [if_pos h0]
                simp only [countSessions]
                omega
              · rw [if_neg (by omega)]
                have ht : t < last := by
                  rcases hc with hc | hc
                  · omega
                  · exact hc
                simp [countDescents, if_pos ht, Nat.add_comm]
          · rw [if_neg hc] at h
            push_neg at hc
            obtain ⟨hidx, hlt⟩ := hc
            obtain ⟨tl, h1, h2, h3, h4, h5, h6⟩ := ih (idx + 1) t acc sl h
            refine ⟨tl, h1, ?_, h3, h4, ?_, ?_⟩
            · intro x hx
              exact le_trans (Nat.le_succ idx) (h2 x hx)
            · rw [h5]
              have : consideredCount (r :: rs) = 1 + consideredCount rs := by
                simp [consideredCount, hst, Nat.add_comm]
              rw [this]
              congr 1
              omega
            · have htimes : consideredTimes (r :: rs) = t :: consideredTimes rs := by
                simp [consideredTimes, hst]
              rw [htimes, h6]
              rw [if_neg (by omega), if_neg hidx]
              simp only [countDescents, if_neg (not_lt.mpr hlt)]
              omega

/-- C1: for any input rows on which the indexer succeeds, the session
boundary list is strictly increasing, its last element is the count of
considered rows, its length is at least one, and its length minus one is the
number of detected sessions (one for the first considered row plus one per
backwards step of the session time). -/
theorem c1_session_list_invariants (rows : List Row) (sl : List ℕ)
    (h : get_session_list rows = Except.ok sl) :
    sl.Chain' (· < ·) ∧ sl.getLast? = some (consideredCount rows) ∧
      1 ≤ sl.length ∧ sl.length - 1 = countSessions (consideredTimes rows) := by
  obtain ⟨tl, h1, _, h3, h4, h5, h6⟩ :=
    session_loop_ok_spec rows 0 (-1) [] sl h
  rw [List.nil_append] at h1
  subst h1
  rw [if_pos rfl] at h6
  refine ⟨h3, by simpa using h5, ?_, ?_⟩
  · rw [h6]; omega
  · rw [h6]; omega

/-- Witness for C1 at the concrete 8-row input of the monotonic-break
example. -/
theorem c1_witness :
    ([0, 3, 6, 8] : List ℕ).Chain' (· < ·) ∧
      ([0, 3, 6, 8] : List ℕ).getLast? = some (consideredCount c3_rows) ∧
      1 ≤ ([0, 3, 6, 8] : List ℕ).length ∧
      ([0, 3, 6, 8] : List ℕ).length - 1 = countSessions (consideredTimes c3_rows) :=
  c1_session_list_invariants c3_rows [0, 3, 6, 8] (by rfl)

/-- C3: on the 8-row input with session-time column 1,2,3,0,1,5,2,9 (no
blanks), `get_session_list` returns exactly the boundary list 0,3,6 with
sentinel 8: three sessions starting at row indices 0, 3 and 6. -/
theorem c3_session_list_concrete :
    get_session_list c3_rows = Except.ok [0, 3, 6, 8] := by
  rfl

/-- C5: every record returned by the validator is exactly the raw longitude
text, the raw latitude text and the altitude parsed and multiplied by
`METERS_PER_FOOT`, serialised with commas and CRLF; an altitude of 100 feet
gives exactly 30.48 meters. -/
theorem c5_record_is_lon_lat_meters (cfg : Config) (row : Row) (out : String)
    (h : generate_kml_coordinate_string cfg row = Except.ok (some out)) :
    ∃ a : ℚ, row.alt = FloatCell.num a ∧
      out = kml_coordinate_line row.lon row.lat (a * METERS_PER_FOOT) ∧
      (a = 100 → a * METERS_PER_FOOT = 3048 / 100) := by
  unfold generate_kml_coordinate_string at h
  by_cases hb : row.fix_quality = IntCell.blank ∨ row.num_sats = IntCell.blank ∨
      row.date_and_time = ""
  · rw [if_pos hb] at h
    simp at h
  · rw [if_neg hb] at h
    cases hfq : row.fix_quality with
    | blank => simp [hfq] at h
    | bad => simp [hfq] at h
    | num fq =>
        simp only [hfq] at h
        by_cases h1 : fq < cfg.min_fix_quality
        · rw [if_pos h1] at h
          simp at h
        · rw [if_neg h1] at h
          cases hns : row.num_sats with
          | blank => simp [hns] at h
          | bad => simp [hns] at h
          | num ns =>
              simp only [hns] at h
              by_cases h2 : ns < cfg.min_satellites
              · rw [if_pos h2] at h
                simp at h
              · rw [if_neg h2] at h
                by_cases h3 : row.lat = "" ∨ row.lon = "" ∨ row.alt = FloatCell.blank
                · rw [if_pos h3] at h
                  simp at h
                · rw [if_neg h3] at h
                  cases halt : row.alt with
                  | blank => simp [halt] at h
                  | bad => simp [halt] at h
                  | num a =>
                      simp only [halt, Except.ok.injEq, Option.some.injEq] at h
                      refine ⟨a, rfl, h.symm, ?_⟩
                      intro ha
                      subst ha
                      norm_num [METERS_PER_FOOT]

/-- Witness for C5 at a concrete accepted row with altitude 100 feet. -/
theorem c5_witness :
    ∃ a : ℚ, c5_row.alt = FloatCell.num a ∧
      kml_coordinate_line c5_row.lon c5_row.lat (100 * METERS_PER_FOOT) =
        kml_coordinate_line c5_row.lon c5_row.lat (a * METERS_PER_FOOT) ∧
      (a = 100 → a * METERS_PER_FOOT = 3048 / 100) :=
  c5_record_is_lon_lat_meters default_config c5_row
    (kml_coordinate_line c5_row.lon c5_row.lat (100 * METERS_PER_FOOT)) (by rfl)

/-- Counterexample to C6 as stated: this row has satellite count 3, below the
default minimum 4, yet it is not rejected — the unparseable fix-quality text
makes `int()` raise, a fatal `ValueError`, so the rejection is not
"regardless of its other field values". -/
theorem c6_counterexample :
    c6_row.num_sats = IntCell.num 3 ∧ (3 : ℤ) < default_config.min_satellites ∧
      generate_kml_coordinate_string default_config c6_row =
        Except.error PyError.valueError :=
  ⟨rfl, by decide, rfl⟩

/-- C6 amended: under the default configuration, a row whose fix quality
parses below 1 is always rejected, whatever the other fields hold; a row
whose satellite count parses below 4 is rejected provided its fix-quality
field is not unparseable text (blank or parsed are both fine) — otherwise the
run aborts with a `ValueError` instead. -/
theorem c6_amended_thresholds (row : Row) :
    (∀ z : ℤ, row.fix_quality = IntCell.num z → z < default_config.min_fix_quality →
        generate_kml_coordinate_string default_config row = Except.ok none) ∧
    (∀ z : ℤ, row.num_sats = IntCell.num z → z < default_config.min_satellites →
        row.fix_quality ≠ IntCell.bad →
        generate_kml_coordinate_string default_config row = Except.ok none) := by
  constructor
  · intro z hz hlt
    unfold generate_kml_coordinate_string
    by_cases hb : row.fix_quality = IntCell.blank ∨ row.num_sats = IntCell.blank ∨
        row.date_and_time = ""
    · rw [if_pos hb]
    · rw [if_neg hb]
      simp only [hz]
      rw [if_pos hlt]
  · intro z hz hlt hnb
    unfold generate_kml_coordinate_string
    by_cases hb : row.fix_quality = IntCell.blank ∨ row.num_sats = IntCell.blank ∨
        row.date_and_time = ""
    · rw [if_pos hb]
    · rw [if_neg hb]
      cases hfq : row.fix_quality with
      | blank => exact absurd (Or.inl hfq) hb
      | bad => exact absurd hfq hnb
      | num fq =>
          simp only [hfq]
          by_cases h1 : fq < default_config.min_fix_quality
          · rw [if_pos h1]
          · rw [if_neg h1]
            simp only [hz]
            rw [if_pos hlt]

/-- Witness for the amended C6 at two concrete rows. -/
theorem c6_witness :
    generate_kml_coordinate_string default_config c6_low_fix_row = Except.ok none ∧
      generate_kml_coordinate_string default_config c6_low_sats_row = Except.ok none :=
  ⟨(c6_amended_thresholds c6_low_fix_row).1 0 rfl (by decide),
   (c6_amended_thresholds c6_low_sats_row).2 3 rfl (by decide) (by decide)⟩

/-- Counterexample to C8 as stated: this row has non-blank fix-quality,
satellite-count and timestamp fields, and its satellite-count field fails to
parse as a number, yet no fatal error is raised — the short-circuit `or`
rejects the row on the low fix quality before `int` ever sees the satellite
count, so the row is silently rejected. -/
theorem c8_counterexample :
    c8_row.fix_quality ≠ IntCell.blank ∧ c8_row.num_sats = IntCell.bad ∧
      c8_row.num_sats ≠ IntCell.blank ∧ c8_row.date_and_time ≠ "" ∧
      generate_kml_coordinate_string default_config c8_row = Except.ok none :=
  ⟨by decide, rfl, by decide, by decide, rfl⟩

/-- C8 amended: for rows with non-blank fix-quality, satellite-count and
timestamp fields, a numeric parse failure is fatal exactly when the parse is
attempted: always for the fix-quality field; for the satellite-count field
when the fix quality parses to at least the minimum; for the altitude field
when both quality checks pass and latitude, longitude and altitude are
non-blank.  Blank required fields never raise: they produce the non-fatal
rejection `Except.ok none`. -/
theorem c8_amended_parse_failures (cfg : Config) (row : Row) :
    (row.num_sats ≠ IntCell.blank → row.date_and_time ≠ "" →
        row.fix_quality = IntCell.bad →
        generate_kml_coordinate_string cfg row = Except.error PyError.valueError) ∧
    (∀ z : ℤ, row.fix_quality = IntCell.num z → ¬ z < cfg.min_fix_quality →
        row.date_and_time ≠ "" → row.num_sats = IntCell.bad →
        generate_kml_coordinate_string cfg row = Except.error PyError.valueError) ∧
    (∀ z w : ℤ, row.fix_quality = IntCell.num z → ¬ z < cfg.min_fix_quality →
        row.num_sats = IntCell.num w → ¬ w < cfg.min_satellites →
        row.date_and_time ≠ "" → row.lat ≠ "" → row.lon ≠ "" →
        row.alt = FloatCell.bad →
        generate_kml_coordinate_string cfg row = Except.error PyError.valueError) ∧
    (row.fix_quality = IntCell.blank →
        generate_kml_coordinate_string cfg row = Except.ok none) ∧
    (row.num_sats = IntCell.blank →
        generate_kml_coordinate_string cfg row = Except.ok none) ∧
    (row.date_and_time = "" →
        generate_kml_coordinate_string cfg row = Except.ok none) ∧
    (∀ z w : ℤ, row.fix_quality = IntCell.num z → ¬ z < cfg.min_fix_quality →
        row.num_sats = IntCell.num w → ¬ w < cfg.min_satellites →
        row.date_and_time ≠ "" →
        (row.lat = "" ∨ row.lon = "" ∨ row.alt = FloatCell.blank) →
        generate_kml_coordinate_string cfg row = Except.ok none) := by
  refine ⟨?_, ?_, ?_, ?_, ?_, ?_, ?_⟩
  · intro hns hd hfq
    unfold generate_kml_coordinate_string
    rw [if_neg (by simp [hfq, hns, hd])]
    simp only [hfq]
  · intro z hfq h1 hd hns
    unfold generate_kml_coordinate_string
    rw [if_neg (by simp [hfq, hns, hd])]
    simp only [hfq]
    rw [if_neg h1]
    simp only [hns]
  · intro z w hfq h1 hns h2 hd hlat hlon halt
    unfold generate_kml_coordinate_string
    rw [if_neg (by simp [hfq, hns, hd])]
    simp only [hfq]
    rw [if_neg h1]
    simp only [hns]
    rw [if_neg h2]
    rw [if_neg (by simp [hlat, hlon, halt])]
    simp only [halt]
  · intro hfq
    unfold generate_kml_coordinate_string
    rw [if_pos (Or.inl hfq)]
  · intro hns
    unfold generate_kml_coordinate_string
    rw [if_pos (Or.inr (Or.inl hns))]
  · intro hd
    unfold generate_kml_coordinate_string
    rw [if_pos (Or.inr (Or.inr hd))]
  · intro z w hfq h1 hns h2 hd h3
    unfold generate_kml_coordinate_string
    rw [if_neg (by simp [hfq, hns, hd])]
    simp only [hfq]
    rw [if_neg h1]
    simp only [hns]
    rw [if_neg h2]
    rw [if_pos h3]

/-- Witness for the amended C8 at four concrete rows: fatal `ValueError` for
each attempted numeric parse that fails, non-fatal rejection for a blank
field. -/
theorem c8_witness :
    generate_kml_coordinate_string default_config c8_bad_fix_row =
        Except.error PyError.valueError ∧
      generate_kml_coordinate_string default_config c8_bad_sats_row =
        Except.error PyError.valueError ∧
      generate_kml_coordinate_string default_config c8_bad_alt_row =
        Except.error PyError.valueError ∧
      generate_kml_coordinate_string default_config c8_blank_fix_row =
        Except.ok none :=
  ⟨(c8_amended_parse_failures default_config c8_bad_fix_row).1
      (by decide) (by decide) rfl,
   (c8_amended_parse_failures default_config c8_bad_sats_row).2.1
      1 rfl (by decide) (by decide) rfl,
   (c8_amended_parse_failures default_config c8_bad_alt_row).2.2.1
      1 5 rfl (by decide) rfl (by decide) (by decide) (by decide) (by decide) rfl,
   (c8_amended_parse_failures default_config c8_blank_fix_row).2.2.2.1 rfl⟩

/-- C10: for rows passing the blank and quality-threshold checks, the
latitude and longitude texts are copied verbatim into the coordinate line —
any non-blank strings, numeric or not, are accepted, never rejected, and
never raise. -/
theorem c10_latlon_verbatim (cfg : Config) (row : Row) (z w : ℤ) (a : ℚ)
    (hfq : row.fix_quality = IntCell.num z) (h1 : ¬ z < cfg.min_fix_quality)
    (hns : row.num_sats = IntCell.num w) (h2 : ¬ w < cfg.min_satellites)
    (hd : row.date_and_time ≠ "") (hlat : row.lat ≠ "") (hlon : row.lon ≠ "")
    (halt : row.alt = FloatCell.num a) :
    generate_kml_coordinate_string cfg row =
      Except.ok (some (kml_coordinate_line row.lon row.lat (a * METERS_PER_FOOT))) := by
  unfold generate_kml_coordinate_string
  rw [if_neg (by simp [hfq, hns, hd])]
  simp only [hfq]
  rw [if_neg h1]
  simp only [hns]
  rw [if_neg h2]
  rw [if_neg (by simp [hlat, hlon, halt])]
  simp only [halt]

/-- Witness for C10 at a row whose latitude and longitude texts are
non-numeric: the row is accepted and the texts appear verbatim. -/
theorem c10_witness :
    generate_kml_coordinate_string default_config c10_row =
      Except.ok (some (kml_coordinate_line c10_row.lon c10_row.lat
        (50 * METERS_PER_FOOT))) :=
  c10_latlon_verbatim default_config c10_row 2 7 50 rfl (by decide) rfl
    (by decide) (by decide) (by decide) (by decide) rfl

/-- C2 fails on the code: on a two-row input whose first row has a blank
session time, the indexer never increments its row counter for the blank row,
so the returned boundary list is 0 with sentinel 1 although the file has two
physical rows; the conversion pass, which increments for every physical row,
then treats the sentinel 1 as the start of a second session and crashes with
`IndexError` reading past the end of the boundary list. -/
theorem c2_code_bug_eval :
    get_session_list c2_rows = Except.ok [0, 1] ∧ c2_rows.length = 2 ∧
      run_error (convert_userdatalog_csv_to_kml default_config c2_rows) =
        some PyError.indexError :=
  ⟨rfl, rfl, rfl⟩

/-- C7 fails on the code: on a zero-row input the session list is the bare
sentinel list with one element, so the emptiness guard does not fire, and the
statistics block divides the rejected-row count by `csv_row_index = 0`,
raising `ZeroDivisionError` instead of reporting 0% gracefully. -/
theorem c7_code_bug_eval :
    get_session_list ([] : List Row) = Except.ok [0] ∧
      run_error (convert_userdatalog_csv_to_kml default_config []) =
        some PyError.zeroDivisionError :=
  ⟨rfl, rfl⟩

/-- C9 fails on the code: when the validator raises `ValueError` mid-session,
the exception propagates out of the driver while the just-opened session file
is still open — the source opens the KML file outside any `with` block or
`try/finally`, so no close runs on the abort path. -/
theorem c9_code_bug_eval :
    run_error (convert_userdatalog_csv_to_kml default_config [c9_row]) =
        some PyError.valueError ∧
      open_file_at_abort (convert_userdatalog_csv_to_kml default_config [c9_row]) =
        some (1, []) :=
  ⟨rfl, rfl⟩

/-- Erasing by a test satisfied only by a final appended element leaves the
rest of the list unchanged. -/
theorem eraseP_append_last {α : Type} (l : List α) (x : α) (p : α → Bool)
    (hl : ∀ a ∈ l, ¬ p a = true) (hx : p x = true) :
    (l ++ [x]).eraseP p = l := by
  induction l with
  | nil => simp [List.eraseP_cons, hx]
  | cons a as ih =>
      have ha : p a = false := by
        simpa using hl a (List.mem_cons_self a as)
      simp only [List.cons_append, List.eraseP_cons, ha, cond_false]
      rw [ih (fun b hb => hl b (List.mem_cons_of_mem a hb))]

/-- The boundary-open check preserves the invariant, in mid-row form. -/
theorem open_check_inv (session_list : List ℕ) (st : DriverState) (b : ℕ)
    (hb : session_list.get? st.session_index = some b)
    (hInv : DriverInv session_list st) :
    DriverInvMid session_list
      (if b = st.csv_row_index then open_kml_session_file st else st) := by
  obtain ⟨i1, i2, i3, i4, i5, i6, i7, i8⟩ := hInv
  by_cases hbe : b = st.csv_row_index
  · rw [if_pos hbe]
    have hnone : st.kml_file = none := by
      cases hf : st.kml_file with
      | none => rfl
      | some p =>
          have := i7 p hf b hb
          omega
    have hcnt : st.kml_rows_written_this_session = 0 := i6 hnone
    refine ⟨i1, i2, i3, i4, ?_, ?_, ?_, i8⟩
    · intro p hp
      dsimp only [open_kml_session_file] at hp ⊢
      cases hp
      exact ⟨rfl, hcnt.symm⟩
    · intro hp
      dsimp only [open_kml_session_file] at hp
      exact absurd hp (by simp)
    · intro p hp v hv
      dsimp only [open_kml_session_file] at hv ⊢
      rw [hb] at hv
      cases hv
      omega
  · rw [if_neg hbe]
    refine ⟨i1, i2, i3, i4, i5, i6, ?_, i8⟩
    intro p hp v hv
    exact le_of_lt (i7 p hp v hv)

/-- The validate-and-write block preserves the mid-row invariant. -/
theorem write_phase_inv (cfg : Config) (row : Row) (session_list : List ℕ)
    (st st' : DriverState) (hInv : DriverInvMid session_list st)
    (h : write_phase cfg row st = Except.ok st') :
    DriverInvMid session_list st' := by
  obtain ⟨i1, i2, i3, i4, i5, i6, i7, i8⟩ := hInv
  unfold write_phase at h
  cases hg : generate_kml_coordinate_string cfg row with
  | error e => rw [hg] at h; exact absurd h (by simp)
  | ok o =>
      rw [hg] at h
      cases o with
      | none =>
          simp only [Except.ok.injEq] at h
          subst h
          exact ⟨i1, i2, i3, i4, i5, i6, i7, i8⟩
      | some s =>
          cases hf : st.kml_file with
          | none => simp only [hf] at h; exact absurd h (by simp)
          | some p =>
              obtain ⟨n, recs⟩ := p
              simp only [hf, Except.ok.injEq] at h
              subst h
              obtain ⟨hn, hlen⟩ := i5 (n, recs) hf
              have hn1 : n = st.session_index + 1 := hn
              have hlen1 : recs.length = st.kml_rows_written_this_session := hlen
              refine ⟨i1, i2, i3, i4, ?_, ?_, ?_, i8⟩
              · intro p hp
                dsimp only at hp ⊢
                cases hp
                refine ⟨hn1, ?_⟩
                dsimp only
                simp only [List.length_append, List.length_cons,
                  List.length_nil]
                omega
              · intro hp
                dsimp only at hp
                exact absurd hp (by simp)
              · intro p hp v hv
                dsimp only at hp hv ⊢
                cases hp
                exact i7 (n, recs) hf v hv

/-- The close block itself preserves the mid-row invariant. -/
theorem close_step_inv (session_list : List ℕ) (st : DriverState)
    (n : ℕ) (recs : List String) (hf : st.kml_file = some (n, recs))
    (hInv : DriverInvMid session_list st) :
    DriverInvMid session_list (close_session_step st n recs) := by
  obtain ⟨i1, i2, i3, i4, i5, i6, i7, i8⟩ := hInv
  obtain ⟨hn, hlen⟩ := i5 (n, recs) hf
  have hn1 : n = st.session_index + 1 := hn
  have hlen1 : recs.length = st.kml_rows_written_this_session := hlen
  have hpair : List.Pairwise (fun a b => a.1 ≠ b.1)
      (st.closed_log ++ [(n, st.kml_rows_written_this_session)]) := by
    rw [List.pairwise_append]
    refine ⟨i8, List.pairwise_singleton _ _, ?_⟩
    intro a ha b hb
    simp only [List.mem_singleton] at hb
    subst hb
    have h3 := i3 a ha
    dsimp only
    omega
  have hlog : ∀ c ∈ st.closed_log ++ [(n, st.kml_rows_written_this_session)],
      c.1 ≤ st.session_index + 1 := by
    intro c hc
    rcases List.mem_append.mp hc with hc | hc
    · have := i3 c hc
      omega
    · simp only [List.mem_singleton] at hc
      subst hc
      dsimp only
      omega
  unfold close_session_step
  dsimp only
  by_cases hz : st.kml_rows_written_this_session = 0
  · rw [if_pos hz]
    have hfiles : delete_session_file (st.files ++ [(n, recs)]) n = st.files := by
      unfold delete_session_file
      refine eraseP_append_last st.files (n, recs) _ ?_ (by simp)
      intro a ha
      have h4 := i4 a ha
      simp only [beq_iff_eq]
      omega
    have hsing : List.filter (fun c => decide (c.2 ≠ 0))
        [(n, st.kml_rows_written_this_session)] = [] := by
      simp [hz]
    refine ⟨?_, ?_, hlog, ?_, ?_, fun _ => rfl, ?_, hpair⟩
    · dsimp only
      rw [hfiles, List.filter_append, hsing, List.append_nil]
      exact i1
    · dsimp only
      rw [List.filter_append, hsing, List.append_nil]
      omega
    · dsimp only
      rw [hfiles]
      intro f hfm
      have := i4 f hfm
      omega
    · intro p hp
      exact absurd hp (by simp)
    · intro p hp
      exact absurd hp (by simp)
  · rw [if_neg hz]
    have hsing : List.filter (fun c => decide (c.2 ≠ 0))
        [(n, st.kml_rows_written_this_session)] =
        [(n, st.kml_rows_written_this_session)] := by
      simp [hz]
    refine ⟨?_, ?_, hlog, ?_, ?_, fun _ => rfl, ?_, hpair⟩
    · dsimp only
      rw [List.map_append, List.filter_append, hsing, i1]
      simp [hlen1]
    · dsimp only
      rw [List.filter_append, hsing]
      simp only [List.length_append, List.length_cons, List.length_nil]
      omega
    · dsimp only
      intro f hfm
      rcases List.mem_append.mp hfm with hfm | hfm
      · have := i4 f hfm
        omega
      · simp only [List.mem_singleton] at hfm
        subst hfm
        dsimp only
        omega
    · intro p hp
      exact absurd hp (by simp)
    · intro p hp
      exact absurd hp (by simp)

/-- The end-of-row close check preserves the mid-row invariant. -/
theorem close_check_inv (session_list : List ℕ) (st st' : DriverState)
    (hInv : DriverInvMid session_list st)
    (h : driver_close_check session_list st = Except.ok st') :
    DriverInvMid session_list st' := by
  unfold driver_close_check at h
  cases hb2 : session_list.get? (st.session_index + 1) with
  | none => rw [hb2] at h; exact absurd h (by simp)
  | some b2 =>
      rw [hb2] at h
      dsimp only at h
      by_cases hc : b2 = st.csv_row_index + 1
      · rw [if_pos hc] at h
        cases hf : st.kml_file with
        | none => rw [hf] at h; exact absurd h (by simp)
        | some p =>
            obtain ⟨n, recs⟩ := p
            rw [hf] at h
            simp only [Except.ok.injEq] at h
            subst h
            exact close_step_inv session_list st n recs hf hInv
      · rw [if_neg hc] at h
        simp only [Except.ok.injEq] at h
        subst h
        exact hInv

/-- The end-of-row index increment turns the mid-row invariant back into the
full invariant. -/
theorem index_bump_inv (session_list : List ℕ) (st : DriverState)
    (hInv : DriverInvMid session_list st) :
    DriverInv session_list { st with csv_row_index := st.csv_row_index + 1 } := by
  obtain ⟨i1, i2, i3, i4, i5, i6, i7, i8⟩ := hInv
  refine ⟨i1, i2, i3, i4, i5, i6, ?_, i8⟩
  intro p hp v hv
  simp only at hp hv ⊢
  have := i7 p hp v hv
  omega

/-- One row step of the driver preserves the invariant. -/
theorem driver_row_step_inv (cfg : Config) (session_list : List ℕ)
    (st st' : DriverState) (row : Row) (hInv : DriverInv session_list st)
    (h : driver_row_step cfg session_list st row = Except.ok st') :
    DriverInv session_list st' := by
  unfold driver_row_step at h
  cases hb : session_list.get? st.session_index with
  | none => rw [hb] at h; exact absurd h (by simp)
  | some b =>
      rw [hb] at h
      dsimp only at h
      have hmid := open_check_inv session_list st b hb hInv
      cases hw : write_phase cfg row
          (if b = st.csv_row_index then open_kml_session_file st else st) with
      | error e => rw [hw] at h; exact absurd h (by simp)
      | ok st2 =>
          rw [hw] at h
          dsimp only at h
          have hmid2 := write_phase_inv cfg row session_list _ st2 hmid hw
          cases hcc : driver_close_check session_list st2 with
          | error e => rw [hcc] at h; exact absurd h (by simp)
          | ok st3 =>
              rw [hcc] at h
              simp only [Except.ok.injEq] at h
              subst h
              exact index_bump_inv session_list st3
                (close_check_inv session_list st2 st3 hmid2 hcc)

/-- The whole driver loop preserves the invariant. -/
theorem driver_loop_inv (cfg : Config) (session_list : List ℕ) :
    ∀ (rows : List Row) (st st' : DriverState), DriverInv session_list st →
      driver_loop cfg session_list rows st = Except.ok st' →
      DriverInv session_list st' := by
  intro rows
  induction rows with
  | nil =>
      intro st st' hInv h
      simp only [driver_loop, Except.ok.injEq] at h
      subst h
      exact hInv
  | cons row rows ih =>
      intro st st' hInv h
      unfold driver_loop at h
      cases hs : driver_row_step cfg session_list st row with
      | error e => rw [hs] at h; exact absurd h (by simp)
      | ok st1 =>
          rw [hs] at h
          exact ih st1 st' (driver_row_step_inv cfg session_list st st1 row hInv hs) h

/-- The invariant holds at the start of the second pass. -/
theorem init_state_inv (session_list : List ℕ) :
    DriverInv session_list init_state := by
  refine ⟨rfl, rfl, ?_, ?_, ?_, ?_, ?_, ?_⟩ <;>
    simp [init_state]

/-- C4: in any successfully completed run, a closed session with zero
appended records has no file on disk and sessions with at least one appended
record each have their file on disk with exactly those records; the
sessions-written statistic counts exactly the closed sessions with a nonzero
record count (so every surviving file is non-empty). -/
theorem c4_empty_sessions_discarded (cfg : Config) (rows : List Row)
    (p1 p2 : ℚ) (st : DriverState)
    (h : convert_userdatalog_csv_to_kml cfg rows =
      Except.ok (Outcome.stats p1 p2 st)) :
    (∀ c ∈ st.closed_log, c.2 = 0 → ∀ f ∈ st.files, f.1 ≠ c.1) ∧
    (∀ c ∈ st.closed_log, c.2 ≠ 0 →
        ∃ recs, (c.1, recs) ∈ st.files ∧ recs.length = c.2) ∧
    (∀ f ∈ st.files, f.2 ≠ []) ∧
    st.sessions_written = (st.closed_log.filter (fun c => c.2 ≠ 0)).length := by
  have hloop : ∃ session_list, driver_loop cfg session_list rows init_state =
      Except.ok st := by
    unfold convert_userdatalog_csv_to_kml at h
    cases hg : get_session_list rows with
    | error e => rw [hg] at h; exact absurd h (by simp)
    | ok sl =>
        rw [hg] at h
        dsimp only at h
        by_cases hsl : sl = []
        · rw [if_pos hsl] at h
          simp at h
        · rw [if_neg hsl] at h
          cases hd : driver_loop cfg sl rows init_state with
          | error e => rw [hd] at h; exact absurd h (by simp)
          | ok st0 =>
              rw [hd] at h
              dsimp only at h
              by_cases h0 : st0.csv_row_index = 0
              · rw [if_pos h0] at h
                simp at h
              · rw [if_neg h0] at h
                by_cases h1 : sl.length - 1 = 0
                · simp only [h1, if_pos] at h
                  simp at h
                · rw [if_neg h1] at h
                  simp only [Except.ok.injEq, Outcome.stats.injEq] at h
                  exact ⟨sl, by rw [hd, h.2.2]⟩
  obtain ⟨sl, hloop⟩ := hloop
  have hInv := driver_loop_inv cfg sl rows init_state st (init_state_inv sl) hloop
  obtain ⟨i1, i2, i3, i4, _, _, _, i8⟩ := hInv
  have hdist : ∀ a ∈ st.closed_log, ∀ b ∈ st.closed_log, a ≠ b → a.1 ≠ b.1 := by
    intro a ha b hb hab
    have hsymm : Symmetric (fun a b : ℕ × ℕ => a.1 ≠ b.1) :=
      fun x y hxy h => hxy h.symm
    exact List.Pairwise.forall hsymm i8 ha hb hab
  refine ⟨?_, ?_, ?_, i2⟩
  · intro c hc hc0 f hfm hcon
    have himg : (f.1, f.2.length) ∈ st.closed_log.filter (fun c => c.2 ≠ 0) := by
      rw [← i1]
      exact List.mem_map_of_mem _ hfm
    have himg2 := List.mem_of_mem_filter himg
    have hne : f.2.length ≠ 0 := by
      have := List.of_mem_filter himg
      simpa using this
    have hne2 : (f.1, f.2.length) ≠ c := by
      intro hcon2
      rw [← hcon2] at hc0
      exact hne hc0
    have := hdist (f.1, f.2.length) himg2 c hc hne2
    exact this hcon
  · intro c hc hc0
    have : c ∈ st.closed_log.filter (fun c => c.2 ≠ 0) := by
      rw [List.mem_filter]
      exact ⟨hc, by simpa using hc0⟩
    rw [← i1] at this
    obtain ⟨f, hfm, hfe⟩ := List.mem_map.mp this
    refine ⟨f.2, ?_, ?_⟩
    · have h1 : f.1 = c.1 := congrArg Prod.fst hfe
      rw [← h1]
      simpa using hfm
    · exact congrArg Prod.snd hfe
  · intro f hfm
    have himg : (f.1, f.2.length) ∈ st.closed_log.filter (fun c => c.2 ≠ 0) := by
      rw [← i1]
      exact List.mem_map_of_mem _ hfm
    have hne : f.2.length ≠ 0 := by
      have := List.of_mem_filter himg
      simpa using this
    intro hcon
    rw [hcon] at hne
    exact hne rfl

/-- Witness for C4 at the concrete run on `c4_rows`. -/
theorem c4_witness :
    (∀ c ∈ c4_final.closed_log, c.2 = 0 → ∀ f ∈ c4_final.files, f.1 ≠ c.1) ∧
    (∀ c ∈ c4_final.closed_log, c.2 ≠ 0 →
        ∃ recs, (c.1, recs) ∈ c4_final.files ∧ recs.length = c.2) ∧
    (∀ f ∈ c4_final.files, f.2 ≠ []) ∧
    c4_final.sessions_written =
      (c4_final.closed_log.filter (fun c => c.2 ≠ 0)).length :=
  c4_empty_sessions_discarded default_config c4_rows
    (((1 : ℕ) : ℚ) / ((2 : ℕ) : ℚ)) (1 - ((1 : ℕ) : ℚ) / ((2 : ℕ) : ℚ)) c4_final
    (by rfl)
